import Mathlib

set_option maxRecDepth 100000

unseal Rat.mul Rat.add Rat.sub Rat.inv Rat.ofScientific

/-! Verification of the horusbinary telemetry pipeline.

A shallow embedding of the telemetry-handling core of `horusbinary.py`
(Project Horus binary/RTTY telemetry uploader), together with theorems
settling the specification claims about it.

Modelling conventions:
* Python byte strings are `List Nat` (each element a byte value `< 256`
  at every call site of the program).
* Python text strings are `List Char` (or Lean `String` converted via
  `String.data`); the program only handles ASCII data.
* IEEE-754 binary32 values unpacked by `struct.unpack` are modelled by
  `PyFloat`: finite values carry their exact rational value, and the
  non-finite encodings are kept as `inf`/`nan`.  Negative zero is merged
  with zero (this affects only the printed sign of an exactly-zero
  field, which no claim touches).  Subsequent arithmetic on these values
  (`5.0 * raw / 255.0`) is modelled exactly over `ℚ`; for every byte
  `raw` the printed `%.2f` rendering of the exact rational equals the
  rendering of the IEEE double, because the quotients `raw/51` never
  fall within one double-rounding error of a decimal rounding boundary.
* `crcmod.predefined.mkCrcFun 'crc-ccitt-false'` is modelled by the
  standard MSB-first CRC16 loop with initial register 0xFFFF and
  polynomial 0x1021 (validated below against the published check value
  `crc16 "123456789" = 0x29B1`).
-/

/-! ## CRC16-CCITT (crc-ccitt-false), as used by `crc16_ccitt` and
`decode_horus_binary` in `horusbinary.py`. -/

/-- One shift step of the MSB-first CRC16 loop with polynomial 0x1021. -/
def crcShift (c : Nat) : Nat :=
  if c &&& 0x8000 ≠ 0 then ((c <<< 1) ^^^ 0x1021) &&& 0xFFFF
  else (c <<< 1) &&& 0xFFFF

/-- Fold one input byte into the CRC register (xor into the high byte,
then eight shift steps). -/
def crc16Update (c b : Nat) : Nat := crcShift^[8] (c ^^^ ((b &&& 0xFF) <<< 8))

/-- CRC16 `crc-ccitt-false`: initial register 0xFFFF, polynomial 0x1021,
no input/output reflection.  Models the `crcmod` predefined function the
source calls. -/
def crc16 (data : List Nat) : Nat := data.foldl crc16Update 0xFFFF

/-- The uppercase hexadecimal digit characters, indexed by value. -/
def hexDigit (n : Nat) : Char := "0123456789ABCDEF".data.getD n '?'

/-- Hexadecimal digits of a natural number, most significant first, no
leading zeros (`hex(n)[2:]` in Python, uppercased).  Structural
recursion on a fuel argument so that the kernel can evaluate it; the
fuel `n + 1` always exceeds the number of hexadecimal digits of `n`. -/
def natToHexAux : Nat → Nat → List Char
  | 0, _ => []
  | fuel + 1, n =>
    if n < 16 then [hexDigit n]
    else natToHexAux fuel (n / 16) ++ [hexDigit (n % 16)]

/-- Python's `hex(n)[2:]`, uppercased. -/
def natToHex (n : Nat) : List Char := natToHexAux (n + 1) n

/-- Python's `str.zfill`: left-pad with `'0'` to width `w`. -/
def zfill (w : Nat) (l : List Char) : List Char :=
  List.replicate (w - l.length) '0' ++ l

/-- The function `crc16_ccitt` from `horusbinary.py`: the CRC16 of `data`, rendered
as `hex(crc)[2:].upper().zfill(4)`. -/
def crc16_ccitt (data : List Nat) : String := ⟨zfill 4 (natToHex (crc16 data))⟩

/-- The byte values of an ASCII string (`str.encode('ascii')`; for the
ASCII strings the program handles this is exactly the codepoint list). -/
def strBytes (s : String) : List Nat := s.data.map Char.toNat

/-- Value of an uppercase hexadecimal digit character. -/
def hexCharVal (c : Char) : Nat :=
  match c with
  | '0' => 0 | '1' => 1 | '2' => 2 | '3' => 3
  | '4' => 4 | '5' => 5 | '6' => 6 | '7' => 7
  | '8' => 8 | '9' => 9 | 'A' => 10 | 'B' => 11
  | 'C' => 12 | 'D' => 13 | 'E' => 14 | 'F' => 15
  | _ => 0

/-- Read a list of hexadecimal digit characters back to a number. -/
def parseHex (l : List Char) : Nat := l.foldl (fun a c => 16 * a + hexCharVal c) 0

example : crc16 (strBytes "123456789") = 0x29B1 := by decide
example : crc16_ccitt (strBytes "FOO,1,2,3") = "6B62" := by decide
example : crc16_ccitt [] = "FFFF" := by decide

/-! ## Python float values and `%`-formatting

`struct.unpack '<f'` produces IEEE-754 binary32 values; converting them
to Python floats (binary64) is exact.  CPython's `'%.Nf' % x` renders
the correctly rounded decimal expansion of the exact binary value of
`x`, resolving exact ties to even — which is precisely round-half-even
on the rational value carried by `PyFloat.finite`. -/

/-- A Python float as unpacked from an IEEE-754 binary32 field: either
a finite value (carried exactly as a rational), an infinity, or NaN. -/
inductive PyFloat
  | finite (q : ℚ)
  | inf (neg : Bool)
  | nan
deriving DecidableEq, Repr

/-- Decode four little-endian bytes as an IEEE-754 binary32 value
(`struct.unpack '<f'`).  Negative zero is merged with zero. -/
def f32FromBytes (b0 b1 b2 b3 : Nat) : PyFloat :=
  let bits : Nat := b0 + 256 * b1 + 65536 * b2 + 16777216 * b3
  let sign : Nat := bits / 2 ^ 31 % 2
  let exp : Nat := bits / 2 ^ 23 % 256
  let frac : Nat := bits % 2 ^ 23
  if exp = 255 then
    if frac = 0 then .inf (sign = 1) else .nan
  else
    let mag : ℚ :=
      if exp = 0 then Rat.divInt frac (2 ^ 149)
      else Rat.divInt ((2 ^ 23 + frac) * 2 ^ exp) (2 ^ 150)
    .finite (if sign = 1 then -mag else mag)

/-- Round a rational to the nearest integer, ties to even. -/
def roundHalfEven (q : ℚ) : ℤ :=
  let f := ⌊q⌋
  if q - f < 1 / 2 then f
  else if q - f > 1 / 2 then f + 1
  else if f % 2 = 0 then f else f + 1

/-- Left-pad a string of digits with `'0'` to width `w`. -/
def padZeros (w : Nat) (s : String) : String := ⟨zfill w s.data⟩

/-- Python `'%.<prec>f' % q` for a nonnegative rational `q`. -/
def fmtFixedNonneg (prec : Nat) (q : ℚ) : String :=
  let n := roundHalfEven (q * (10 : ℚ) ^ prec)
  let d : ℤ := (10 : ℤ) ^ prec
  toString (n / d) ++ "." ++ padZeros prec (toString (n % d))

/-- Python `'%.<prec>f' % q` for a finite value: sign-magnitude rendering (a
negative value that rounds to zero keeps its minus sign, as in CPython). -/
def fmtFixed (prec : Nat) (q : ℚ) : String :=
  if q < 0 then "-" ++ fmtFixedNonneg prec (-q) else fmtFixedNonneg prec q

/-- Python `'%.<prec>f' % x` for a `PyFloat`. -/
def fmtPyFloat (prec : Nat) : PyFloat → String
  | .finite q => fmtFixed prec q
  | .inf false => "inf"
  | .inf true => "-inf"
  | .nan => "nan"

/-- Python `'%02d' % n`: zero-pad to (at least) two digits. -/
def fmt02d (n : Nat) : String := padZeros 2 (toString n)

example : fmtFixed 2 (1000 / 255 : ℚ) = "3.92" := by decide
example : fmtFixed 5 (-1 / 200000 : ℚ) = "-0.00000" := by decide
example : fmt02d 3 = "03" := by decide
example : f32FromBytes 167 249 33 65 = .finite (Rat.divInt 10615207 (2 ^ 20)) := by
  decide

/-! ## The binary telemetry decoder (`decode_horus_binary`)

Wire format `<BHBBBffHBBbBH` (22 bytes, little-endian, no padding):
`id:u8, counter:u16, h:u8, m:u8, s:u8, lat:f32, lon:f32, alt:u16,
speed:u8, sats:u8, temp:i8, battRaw:u8, crc:u16`. -/

/-- The telemetry record built by `decode_horus_binary` (the `telemetry`
dict of the source; `callsign` and `batt_voltage` are filled in on the
success path only). -/
structure Telemetry where
  payload_id : Nat
  counter : Nat
  time : String
  latitude : PyFloat
  longitude : PyFloat
  altitude : Nat
  speed : Nat
  sats : Nat
  temp : Int
  batt_voltage_raw : Nat
  checksum : Nat
  callsign : String := ""
  batt_voltage : ℚ := 0
deriving DecidableEq, Repr

/-- Python `struct.unpack "<BHBBBffHBBbBH" data`: succeeds exactly on 22-byte
buffers (`struct.error` otherwise, caught by the source and turned into
a no-output return). -/
def horusUnpack (data : List Nat) : Option Telemetry :=
  match data with
  | [b0, b1, b2, b3, b4, b5, b6, b7, b8, b9, b10, b11,
     b12, b13, b14, b15, b16, b17, b18, b19, b20, b21] =>
    some
      { payload_id := b0
        counter := b1 + 256 * b2
        time := fmt02d b3 ++ ":" ++ fmt02d b4 ++ ":" ++ fmt02d b5
        latitude := f32FromBytes b6 b7 b8 b9
        longitude := f32FromBytes b10 b11 b12 b13
        altitude := b14 + 256 * b15
        speed := b16
        sats := b17
        temp := if b18 < 128 then (b18 : Int) else (b18 : Int) - 256
        batt_voltage_raw := b19
        checksum := b20 + 256 * b21 }
  | _ => none

/-- The payload ID table (a Python dict `int -> str`), as an association
list; `read_payload_list` seeds it with this dummy table. -/
def default_payload_list : List (Nat × String) :=
  [(0, "4FSKTEST"), (1, "HORUSBINARY")]

/-- The sentence body after the `"$$"` of the format string
`"$$%s,%d,%s,%.5f,%.5f,%d,%d,%d,%d,%.2f"` in `decode_horus_binary`. -/
def ukhasBody (payload_call : String) (t : Telemetry) (batt : ℚ) : String :=
  payload_call ++ "," ++ toString t.counter ++ "," ++ t.time ++ "," ++
  fmtPyFloat 5 t.latitude ++ "," ++ fmtPyFloat 5 t.longitude ++ "," ++
  toString t.altitude ++ "," ++ toString t.speed ++ "," ++
  toString t.sats ++ "," ++ toString t.temp ++ "," ++ fmtFixed 2 batt

/-- The success tail of `decode_horus_binary`: derive the battery
voltage, render the UKHAS sentence and append its checksum.  The format
string starts with the literal `"$$"`, so the checksum input
`_sentence[2:]` is exactly the body. -/
def decode_render (payload_call : String) (t : Telemetry) : String × Telemetry :=
  let batt : ℚ := 5 * (t.batt_voltage_raw : ℚ) / 255
  ("$$" ++ ukhasBody payload_call t batt ++ "*" ++
      crc16_ccitt (strBytes (ukhasBody payload_call t batt)) ++ "\n",
    { t with callsign := payload_call, batt_voltage := batt })

/-- The function `decode_horus_binary` from `horusbinary.py`: unpack the fixed
layout, validate the CRC16 over all bytes but the trailing checksum
field (compared as a raw 16-bit integer), look the payload ID up in the
table, then render the UKHAS ASCII sentence.  `none` models the
`(None, None)` no-output return. -/
def decode_horus_binary (data : List Nat) (payload_list : List (Nat × String)) :
    Option (String × Telemetry) :=
  match horusUnpack data with
  | none => none
  | some t =>
    if crc16 (data.take (data.length - 2)) ≠ t.checksum then none
    else
      match payload_list.lookup t.payload_id with
      | none => none
      | some payload_call => some (decode_render payload_call t)

/-- The 22-byte example packet: ID 1, counter 42, time 03:04:05,
lat 10.12345 (as binary32), lon 20.54321 (as binary32), alt 5000,
speed 3, sats 7, temp -5, battRaw 200, with its correct CRC16 0x5F3C. -/
def examplePacket : List Nat :=
  [1, 42, 0, 3, 4, 5, 167, 249, 33, 65, 126, 88, 164, 65,
   136, 19, 3, 7, 251, 200, 60, 95]

/-- The telemetry record unpacked from `examplePacket`. -/
def exampleRecord : Telemetry :=
  { payload_id := 1
    counter := 42
    time := "03:04:05"
    latitude := .finite (Rat.divInt 10615207 (2 ^ 20))
    longitude := .finite (Rat.divInt 10770558 (2 ^ 19))
    altitude := 5000
    speed := 3
    sats := 7
    temp := -5
    batt_voltage_raw := 200
    checksum := 24380 }

example : horusUnpack examplePacket = some exampleRecord := by decide

example :
    decode_horus_binary examplePacket default_payload_list =
      some (decode_render "HORUSBINARY" exampleRecord) := by rfl

example :
    ukhasBody "HORUSBINARY" exampleRecord
        (5 * (exampleRecord.batt_voltage_raw : ℚ) / 255) =
      "HORUSBINARY,42,03:04:05,10.12345,20.54321,5000,3,7,-5,3.92" := by decide

/-! ## Python string splitting

`str.split(sep)` splits on every non-overlapping occurrence of `sep`,
left to right, and always returns a non-empty list (e.g.
`"$$$".split("$$") == ['', '$']`, `"".split('$') == ['']`). -/

/-- Python `s.split(c)` for a one-character separator `c`. -/
def splitChar (c : Char) : List Char → List (List Char)
  | [] => [[]]
  | x :: xs =>
    match splitChar c xs with
    | [] => [[]]
    | h :: t => if x = c then [] :: h :: t else (x :: h) :: t

/-- Python `s.split("$$")`. -/
def splitDD : List Char → List (List Char)
  | '$' :: '$' :: xs => [] :: splitDD xs
  | x :: xs =>
    match splitDD xs with
    | [] => [[x]]
    | h :: t => (x :: h) :: t
  | [] => [[]]

example : splitDD "xx$$$yy".data = ["xx".data, "$yy".data] := by decide
example : splitChar '$' "$$$$FOO".data = [[], [], [], [], "FOO".data] := by decide
example : splitChar '$' [] = [[]] := by decide

/-- Python's `lst[-1]`: the last element of a (never empty) split
result. -/
def lastPart : List (List Char) → List Char
  | [] => []
  | [x] => x
  | _ :: x :: xs => lastPart (x :: xs)

theorem splitChar_ne_nil (c : Char) (l : List Char) : splitChar c l ≠ [] := by
  cases l with
  | nil => simp [splitChar]
  | cons x xs =>
    simp only [splitChar]
    cases splitChar c xs with
    | nil => simp
    | cons h t =>
      by_cases hx : x = c <;> simp [hx]

/-- The last piece produced by `splitChar c` never contains `c` (it is
the text after the final occurrence of the separator). -/
theorem splitChar_lastPart_not_mem (c : Char) (l : List Char) :
    c ∉ lastPart (splitChar c l) := by
  induction l with
  | nil => simp [splitChar, lastPart]
  | cons x xs ih =>
    simp only [splitChar]
    cases hs : splitChar c xs with
    | nil => exact absurd hs (splitChar_ne_nil c xs)
    | cons h t =>
      rw [hs] at ih
      by_cases hx : x = c
      · simpa [hx, lastPart] using ih
      · cases t with
        | nil =>
          simp only [if_neg hx, lastPart, List.mem_cons, not_or]
          simp only [lastPart] at ih
          exact ⟨fun hc => hx hc.symm, ih⟩
        | cons h2 t2 =>
          simpa [if_neg hx, lastPart] using ih

/-! ## The Habitat upload queue (`HabitatUploader`)

The queue (`queue.Queue(queue_size)`) is modelled as a FIFO list whose
head is the oldest entry; `put_nowait` appends at the tail and raises
`queue.Full` (caught and logged by `add`) when the queue already holds
`queue_size` entries.  Sentences are `List Char`. -/

/-- The observable state of a `HabitatUploader`. -/
structure Uploader where
  queue : List (List Char)
  queue_size : Nat
  inhibit : Bool
  /-- number of `"Error adding sentence to queue"` messages logged by
  `add` (the `put_nowait` overflow branch). -/
  add_errors : Nat := 0
deriving DecidableEq, Repr

/-- A fresh uploader with the default queue size 16. -/
def Uploader.init : Uploader := { queue := [], queue_size := 16, inhibit := false }

/-- The sentence normalization performed by `HabitatUploader.add`:
`sentence.split('$')[-1]`, re-prefix `"$$"`, and append a newline when
the last character is not already a newline. -/
def habitat_normalize (sentence : List Char) : List Char :=
  let s1 := lastPart (splitChar '$' sentence)
  let s2 := '$' :: '$' :: s1
  if s2.getLast? = some '\n' then s2 else s2 ++ ['\n']

/-- Method `HabitatUploader.add`: a no-op when upload is inhibited; otherwise
normalize and `put_nowait`, logging (not raising, not displacing) when
the queue is full. -/
def habitat_add (st : Uploader) (sentence : List Char) : Uploader :=
  if st.inhibit then st
  else
    let s := habitat_normalize sentence
    if st.queue.length < st.queue_size then { st with queue := st.queue ++ [s] }
    else { st with add_errors := st.add_errors + 1 }

/-- What one pass of the `habitat_upload_thread` loop body does. -/
inductive WorkerAction
  /-- `habitat_upload sentence` was called; `warned` records whether the
  queue-full drain warning was logged first. -/
  | uploaded (sentence : List Char) (warned : Bool)
  /-- empty queue: sleep 0.1 s and loop. -/
  | idle
deriving DecidableEq, Repr

/-- One iteration of the `habitat_upload_thread` loop: if the queue is
completely full, drain everything and upload only the most recent
entry (with a warning); otherwise upload the oldest entry, if any. -/
def habitat_worker_iteration (st : Uploader) : Uploader × WorkerAction :=
  if st.queue.length > 0 then
    if st.queue.length = st.queue_size then
      ({ st with queue := [] }, .uploaded (st.queue.getLastD []) true)
    else
      ({ st with queue := st.queue.tail }, .uploaded (st.queue.headD []) false)
  else (st, .idle)

example : habitat_normalize "$$$$FOO,1,2,3".data = "$$FOO,1,2,3\n".data := by decide
example : habitat_normalize "FOO,1,2,3".data = "$$FOO,1,2,3\n".data := by decide
example : habitat_normalize "FOO\n\n".data = "$$FOO\n\n".data := by decide

/-! ## The ASCII sentence validator / OziMux relay (`ozimux_upload`)

Python scalar parsing is modelled for the ASCII decimal forms the
program's sentences use: `float()` accepts an optional sign, a decimal
mantissa and an optional exponent (the `inf`/`nan` words and underscore
separators are not modelled); `int()` accepts an optional sign and
decimal digits; both strip surrounding whitespace.
`datetime.strptime(_, "%H:%M:%S")` accepts one or two digits per field
with `H ≤ 23`, `M ≤ 59`, `S ≤ 61` and nothing left over. -/

/-- Python's default `str.strip()` whitespace (ASCII part). -/
def isPyWhitespace (c : Char) : Bool :=
  c = ' ' ∨ c = '\t' ∨ c = '\n' ∨ c = '\r' ∨ c = '\x0b' ∨ c = '\x0c'

/-- Python `str.strip()`. -/
def pyStrip (l : List Char) : List Char :=
  (l.dropWhile isPyWhitespace).reverse.dropWhile isPyWhitespace |>.reverse

/-- Decimal digit test and value. -/
def isDigitChar (c : Char) : Bool := '0' ≤ c ∧ c ≤ '9'

/-- Value of a list of decimal digits. -/
def digitsVal (l : List Char) : Nat :=
  l.foldl (fun a c => 10 * a + (c.toNat - '0'.toNat)) 0

/-- Optional leading sign: returns (negative?, rest). -/
def takeSign : List Char → Bool × List Char
  | '-' :: rest => (true, rest)
  | '+' :: rest => (false, rest)
  | l => (false, l)

/-- Python `int(str)`: optional sign, then one or more decimal digits. -/
def pyParseInt (l : List Char) : Option Int :=
  let s := pyStrip l
  let (neg, rest) := takeSign s
  if rest ≠ [] ∧ rest.all isDigitChar then
    some (if neg then -(digitsVal rest : Int) else (digitsVal rest : Int))
  else none

/-- Mantissa of a Python float literal: `digits`, `digits.`, `.digits`
or `digits.digits` — as (integer digits, fraction digits), requiring at
least one digit overall. -/
def parseMantissa (l : List Char) : Option (List Char × List Char) :=
  match splitChar '.' l with
  | [ip] => if ip ≠ [] ∧ ip.all isDigitChar then some (ip, []) else none
  | [ip, fp] =>
    if (ip ++ fp) ≠ [] ∧ ip.all isDigitChar ∧ fp.all isDigitChar then
      some (ip, fp)
    else none
  | _ => none

/-- Python `float(str)` for finite decimal literals, as an exact
rational. -/
def pyParseFloat (l : List Char) : Option ℚ :=
  let s := pyStrip l
  let (neg, rest) := takeSign s
  let withExp : Option (List Char × Int) :=
    match splitChar 'e' (rest.map Char.toLower) with
    | [m] => some (m, 0)
    | [m, e] => (pyParseInt e).map (fun ev => (m, ev))
    | _ => none
  match withExp with
  | none => none
  | some (m, ev) =>
    match parseMantissa m with
    | none => none
    | some (ip, fp) =>
      let base : ℚ := (digitsVal ip : ℚ) + Rat.divInt (digitsVal fp) (10 ^ fp.length)
      let scaled : ℚ :=
        if ev ≥ 0 then base * ((10 : ℕ) ^ ev.toNat : ℕ)
        else Rat.divInt 1 ((10 : ℕ) ^ (-ev).toNat) * base
      some (if neg then -scaled else scaled)

/-- Whether `datetime.datetime.strptime(t, "%H:%M:%S")` succeeds. -/
def validHMS (l : List Char) : Bool :=
  match splitChar ':' l with
  | [h, m, s] =>
    h ≠ [] ∧ h.length ≤ 2 ∧ h.all isDigitChar ∧ digitsVal h ≤ 23 ∧
    m ≠ [] ∧ m.length ≤ 2 ∧ m.all isDigitChar ∧ digitsVal m ≤ 59 ∧
    s ≠ [] ∧ s.length ≤ 2 ∧ s.all isDigitChar ∧ digitsVal s ≤ 61
  | _ => false

example : pyParseFloat "10.12345".data = some (Rat.divInt 202469 20000) := by decide
example : pyParseFloat "-1e2".data = some (-100) := by decide
example : pyParseFloat "abc".data = none := by decide
example : pyParseInt "  42 ".data = some 42 := by decide
example : pyParseInt "4.2".data = none := by decide
example : validHMS "03:04:05".data = true := by decide
example : validHMS "24:00:00".data = false := by decide

/-- Outcome of `ozimux_upload`: every failure branch logs and returns
(nothing is ever raised past the function). -/
inductive OziResult
  /-- the sanity checks passed and the OziMux sentence was handed to
  `oziplotter_upload_basic_telemetry`. -/
  | sent (time : List Char) (lat lon : ℚ) (alt : Int)
  /-- `"CRC Fail"`: recomputed CRC string differs from the suffix. -/
  | crc_fail
  /-- an `IndexError`/`ValueError` reached the enclosing handler
  (missing `'*'`, missing fields, unparsable numbers, empty remainder). -/
  | parse_error
  /-- `"Invalid Time"`: `strptime` rejected field 2. -/
  | invalid_time
  /-- `"Zero Lat/Long"`. -/
  | zero_position
  /-- `"Invalid Altitude"`: outside `[0, 65535]`. -/
  | invalid_altitude
deriving DecidableEq, Repr

/-- The front half of `ozimux_upload`: strip whitespace, take the text
after the last `"$$"`, drop one stray leading `'$'`, and split off the
checksum at the `'*'`.  `none` models an `IndexError` caught by the
enclosing `except` (empty remainder, or no `'*'` present). -/
def ozimux_extract (sentence : List Char) : Option (List Char × List Char) :=
  let s0 := pyStrip sentence
  match lastPart (splitDD s0) with
  | [] => none
  | c0 :: rest =>
    let s2 := if c0 = '$' then rest else c0 :: rest
    match splitChar '*' s2 with
    | telem :: crcs :: _ => some (telem, crcs)
    | _ => none

/-- The back half of `ozimux_upload`, reached once the checksum check
has passed: extract time / latitude / longitude / altitude (fields 2-5)
and run the sanity checks; a missing field or unparsable number is an
`IndexError`/`ValueError` caught by the enclosing `except`. -/
def ozimux_checked (telem : List Char) : OziResult :=
  let fields := splitChar ',' telem
  match fields.get? 2, fields.get? 3, fields.get? 4, fields.get? 5 with
  | some tm, some lats, some lons, some alts =>
    match pyParseFloat lats, pyParseFloat lons, pyParseInt alts with
    | some lat, some lon, some alt =>
      if ¬ validHMS tm then .invalid_time
      else if lat = 0 ∨ lon = 0 then .zero_position
      else if alt > 65535 ∨ alt < 0 then .invalid_altitude
      else .sent tm lat lon alt
    | _, _, _ => .parse_error
  | _, _, _, _ => .parse_error

/-- The function `ozimux_upload` from `horusbinary.py`: parse and sanity-check a
UKHAS sentence; on success hand a position report to the OziMux UDP
emitter.  The CRC comparison `_calc_crc != _crc` is Python string
equality — case-sensitive. -/
def ozimux_upload (sentence : List Char) : OziResult :=
  match ozimux_extract sentence with
  | none => .parse_error
  | some (telem, crcs) =>
    if (crc16_ccitt (telem.map Char.toNat)).data ≠ crcs then .crc_fail
    else ozimux_checked telem

example :
    ozimux_upload "$$X,0,00:00:01,1.0,2.0,100*50BE".data =
      .sent "00:00:01".data 1 2 100 := by decide
example : ozimux_upload "$$X,0,00:00:01,1.0,2.0,100*50be".data = .crc_fail := by
  decide
example : ozimux_upload "$$FOO,1,2,3*0000".data = .crc_fail := by decide
example : ozimux_upload "no stars here".data = .parse_error := by decide
example :
    ozimux_upload "$$X,0,00:00:01,0.0,2.0,100*88F7".data = .zero_position := by
  decide

/-! ## The UDP fan-out emitters

`oziplotter_upload_basic_telemetry` and `send_payload_summary` each
open a fresh UDP socket, try a broadcast send, fall back once to
localhost on `socket.error`, and close the socket.  The environment
decides whether each `sendto` succeeds.  All exceptions escaping the
function body are caught by a final `except Exception` which logs and
returns — so nothing is ever raised to the caller; the model keeps the
event trace produced up to the point the exception (if any) was
caught. -/

/-- Observable socket events of one emitter call. -/
inductive UdpEvent
  | socket_opened
  | sent_broadcast
  | sent_localhost
  | socket_closed
deriving DecidableEq, Repr

/-- Which `sendto` calls succeed in this run. -/
structure UdpEnv where
  broadcast_ok : Bool
  localhost_ok : Bool
deriving DecidableEq, Repr

/-- The `"TELEMETRY,%s,%.5f,%.5f,%d\n"` sentence of
`oziplotter_upload_basic_telemetry`. -/
def oziSentence (time : List Char) (lat lon : ℚ) (alt : Int) : String :=
  "TELEMETRY," ++ ⟨time⟩ ++ "," ++ fmtFixed 5 lat ++ "," ++ fmtFixed 5 lon ++
    "," ++ toString alt ++ "\n"

/-- The function `oziplotter_upload_basic_telemetry`: the socket-event trace and the
Python return value (`None` when the final `except Exception` fired —
in particular when the localhost fallback send also failed, in which
case `close()` is never reached). -/
def oziplotter_upload_basic_telemetry (env : UdpEnv) (time : List Char)
    (lat lon : ℚ) (alt : Int) : List UdpEvent × Option String :=
  let sentence := oziSentence time lat lon alt
  if env.broadcast_ok then
    ([.socket_opened, .sent_broadcast, .socket_closed], some sentence)
  else if env.localhost_ok then
    ([.socket_opened, .sent_localhost, .socket_closed], some sentence)
  else
    ([.socket_opened], none)

/-- Python's `telemetry['latitude'] == 0.0` on a `PyFloat` (NaN never
compares equal; infinities are nonzero). -/
def pyEqZero : PyFloat → Bool
  | .finite q => q = 0
  | _ => false

/-- The function `send_payload_summary`: skipped entirely (no socket) when the
summary port is disabled (`-1`) or when latitude and longitude are both
zero; otherwise the same open / broadcast / localhost-fallback / close
sequence as the OziMux emitter.  Only the event trace is modelled (the
JSON payload is opaque to every claim). -/
def send_payload_summary (env : UdpEnv) (summary_port : Int)
    (telemetry : Telemetry) : List UdpEvent :=
  if summary_port = -1 then []
  else if pyEqZero telemetry.latitude ∧ pyEqZero telemetry.longitude then []
  else if env.broadcast_ok then [.socket_opened, .sent_broadcast, .socket_closed]
  else if env.localhost_ok then [.socket_opened, .sent_localhost, .socket_closed]
  else [.socket_opened]

/-! ## The line handlers (`handle_ukhas`, `handle_binary`)

`handle_ukhas` relays every `$$`-line to the OziMux validator and then
unconditionally queues the raw line for Habitat upload (the uploader is
always initialized before the ingest loop starts).

`handle_binary` hex-decodes the line inside `try/except TypeError`.
Under Python 3, `codecs.decode(data, 'hex')` raises `binascii.Error`
(a subclass of `ValueError`, not of `TypeError`) on a non-hex digit or
an odd-length string, so that handler clause does not catch it and the
exception propagates out of `handle_binary` into the ingest loop. -/

/-- The function `handle_ukhas`: the OziMux relay outcome and the uploader state
after the unconditional `habitat_uploader.add(data)`. -/
def handle_ukhas (st : Uploader) (data : List Char) : Uploader × OziResult :=
  (habitat_add st data, ozimux_upload data)

/-- Python 3 exceptions relevant to `handle_binary`. -/
inductive PyExc
  /-- `binascii.Error` (subclass of `ValueError`). -/
  | binasciiError
deriving DecidableEq, Repr

/-- Hex-digit test matching `binascii.unhexlify` (both cases allowed). -/
def isHexDigitChar (c : Char) : Bool :=
  ('0' ≤ c ∧ c ≤ '9') ∨ ('a' ≤ c ∧ c ≤ 'f') ∨ ('A' ≤ c ∧ c ≤ 'F')

/-- Value of a hex digit of either case. -/
def hexVal (c : Char) : Nat :=
  if '0' ≤ c ∧ c ≤ '9' then c.toNat - '0'.toNat
  else if 'a' ≤ c ∧ c ≤ 'f' then c.toNat - 'a'.toNat + 10
  else if 'A' ≤ c ∧ c ≤ 'F' then c.toNat - 'A'.toNat + 10
  else 0

/-- Pair up hex digits into bytes (the input length is even when this
is reached). -/
def hexPairs : List Char → List Nat
  | c1 :: c2 :: rest => (16 * hexVal c1 + hexVal c2) :: hexPairs rest
  | _ => []

/-- Python 3 `codecs.decode(data, 'hex')`: `binascii.Error` on any
non-hex character or an odd-length input. -/
def codecsDecodeHex (data : List Char) : Except PyExc (List Nat) :=
  if data.all isHexDigitChar ∧ data.length % 2 = 0 then .ok (hexPairs data)
  else .error .binasciiError

/-- What `handle_binary` did with a line. -/
inductive BinaryHandled
  /-- the decode failed (logged) or succeeded; on success the sentence
  was relayed, summarised, logged and queued. -/
  | handled (forwarded : Option String)
deriving DecidableEq, Repr

instance {ε α : Type} [DecidableEq ε] [DecidableEq α] :
    DecidableEq (Except ε α) := fun x y =>
  match x, y with
  | .ok a, .ok b =>
    if h : a = b then isTrue (by rw [h]) else isFalse (by simp [h])
  | .error a, .error b =>
    if h : a = b then isTrue (by rw [h]) else isFalse (by simp [h])
  | .ok _, .error _ => isFalse (by simp)
  | .error _, .ok _ => isFalse (by simp)

/-- The function `handle_binary` from `horusbinary.py`.  The `try`/`except TypeError`
around the hex decode is modelled faithfully: a `binascii.Error` is not
a `TypeError`, so it escapes as `.error` (under Python 2 the same
failure raised `TypeError` and was caught — the clause is a Python 2
leftover). -/
def handle_binary (data : List Char) (payload_list : List (Nat × String)) :
    Except PyExc BinaryHandled :=
  match codecsDecodeHex data with
  | .error e =>
    -- `except TypeError` does not match `binascii.Error`: propagate.
    .error e
  | .ok binary_string =>
    match decode_horus_binary binary_string payload_list with
    | none => .ok (.handled none)
    | some (sentence, _) => .ok (.handled (some sentence))

example : handle_binary "zz".data [] = .error .binasciiError := by decide
example : handle_binary "abc".data [] = .error .binasciiError := by decide
example : handle_binary "ab".data [] = .ok (.handled none) := by decide

/-! ## The HTTP upload attempt (`HabitatUploader.habitat_upload`)

The `while _retries < self.upload_retries` loop issues one HTTP PUT
per iteration; `_retries` is incremented only on a 409 response, every
other outcome leaves the loop.  The network is modelled as a function
from the attempt index (equal to `_retries` at that iteration) to the
response. -/

/-- One response of the Habitat endpoint, or a connection-level
failure (`requests.put` raising). -/
inductive HabitatResponse
  | conn_error
  | status (code : Nat)
deriving DecidableEq, Repr

/-- How `habitat_upload` finished. -/
inductive UploadOutcome
  /-- 201 or 403: logged as a successful upload. -/
  | uploaded
  /-- the `requests.put` call raised: logged `Upload Failed`, loop left. -/
  | conn_failed
  /-- any other status code: logged as an upload error, loop left. -/
  | http_error (code : Nat)
  /-- the retry budget was consumed by 409 responses: logged
  `upload conflict not resolved`. -/
  | conflict_exhausted
deriving DecidableEq, Repr

/-- The upload loop from `_retries = retries`; returns the outcome and
the total number of HTTP attempts made. -/
def habitat_upload_go (resp : Nat → HabitatResponse) (limit retries : Nat) :
    UploadOutcome × Nat :=
  if retries < limit then
    match resp retries with
    | .conn_error => (.conn_failed, retries + 1)
    | .status code =>
      if code = 201 ∨ code = 403 then (.uploaded, retries + 1)
      else if code = 409 then habitat_upload_go resp limit (retries + 1)
      else (.http_error code, retries + 1)
  else (.conflict_exhausted, retries)
  termination_by limit - retries

/-- Method `HabitatUploader.habitat_upload` against response sequence `resp`
with retry limit `limit` (default 5). -/
def habitat_upload (resp : Nat → HabitatResponse) (limit : Nat) :
    UploadOutcome × Nat :=
  habitat_upload_go resp limit 0

/-- Unfolding equation for `habitat_upload_go` (it is defined by
well-founded recursion, so `simp [habitat_upload_go]` is not enough). -/
theorem habitat_upload_go_eq (resp : Nat → HabitatResponse) (limit retries : Nat) :
    habitat_upload_go resp limit retries =
      if retries < limit then
        match resp retries with
        | .conn_error => (.conn_failed, retries + 1)
        | .status code =>
          if code = 201 ∨ code = 403 then (.uploaded, retries + 1)
          else if code = 409 then habitat_upload_go resp limit (retries + 1)
          else (.http_error code, retries + 1)
      else (.conflict_exhausted, retries) := by
  rw [habitat_upload_go]

/-- If the first `k` responses are all 409, the loop reaches
`_retries = k` unchanged in outcome. -/
theorem habitat_upload_go_conflicts (resp : Nat → HabitatResponse)
    (limit k : Nat) (hk : k ≤ limit)
    (h409 : ∀ i, i < k → resp i = .status 409) :
    habitat_upload_go resp limit 0 = habitat_upload_go resp limit k := by
  induction k with
  | zero => rfl
  | succ n ih =>
    have hn : habitat_upload_go resp limit 0 = habitat_upload_go resp limit n :=
      ih (Nat.le_of_succ_le hk) (fun i hi => h409 i (Nat.lt_succ_of_lt hi))
    rw [hn, habitat_upload_go_eq, if_pos (Nat.lt_of_succ_le hk),
      h409 n (Nat.lt_succ_self n)]
    simp

/-! ## Claim theorems -/

/-- The uploader state after pushing `"S1" ... "S<n>"` onto a fresh
(default size 16, worker paused) uploader. -/
def c2push (n : Nat) : Uploader :=
  (List.range n).foldl
    (fun st i => habitat_add st ("S" ++ toString (i + 1)).data) Uploader.init

/-- C2 counterexample: pushing capacity+1 = 17 sentences, the entry the
resumed worker drains and uploads is the normalization of the 16th
push, not of the 17th ("last pushed") — the 17th push found the queue
full and was dropped. -/
theorem c2_queue_overflow_counterexample :
    (habitat_worker_iteration (c2push 17)).2 =
        .uploaded (habitat_normalize "S16".data) true ∧
      (habitat_worker_iteration (c2push 17)).2 ≠
        .uploaded (habitat_normalize "S17".data) true ∧
      habitat_normalize "S16".data ≠ habitat_normalize "S17".data := by
  decide

/-- C2 (amended): enqueue never displaces queued entries (it either
appends or leaves the queue unchanged); pushing 17 sentences onto the
paused default uploader leaves the first 16 queued and logs one
overflow error for the dropped 17th; the resumed worker then drains the
full queue with a warning, uploading only the 16th (the most recently
enqueued) sentence. -/
theorem c2_queue_overflow :
    (∀ st s, (habitat_add st s).queue = st.queue ∨
        (habitat_add st s).queue = st.queue ++ [habitat_normalize s]) ∧
      (c2push 17).queue =
        (List.range 16).map
          (fun i => habitat_normalize (("S" ++ toString (i + 1)).data)) ∧
      (c2push 17).add_errors = 1 ∧
      habitat_worker_iteration (c2push 17) =
        ({ c2push 17 with queue := [] },
          .uploaded (habitat_normalize "S16".data) true) := by
  refine ⟨fun st s => ?_, by decide, by decide, by decide⟩
  unfold habitat_add
  split_ifs <;> simp

/-- C6: under Python 3 the hex decode of a non-hex (or odd-length) line
raises `binascii.Error`, which `except TypeError` does not catch, so
the failure escapes `handle_binary` into the ingest loop instead of
being handled locally. -/
theorem c6_handle_binary_raises :
    handle_binary "zz".data default_payload_list = .error .binasciiError ∧
      handle_binary "abc".data default_payload_list = .error .binasciiError ∧
      handle_binary "ab".data default_payload_list = .ok (.handled none) := by
  decide

/-- C10: `handle_ukhas` always hands the raw line to `habitat_add`
regardless of the OziMux validation outcome; in particular a sentence
the validator drops as a checksum failure is still queued (normalized)
for Habitat upload. -/
theorem c10_ukhas_upload_unconditional :
    (∀ st data, handle_ukhas st data = (habitat_add st data, ozimux_upload data)) ∧
      ozimux_upload "$$FOO,1,2,3*ABCD".data = .crc_fail ∧
      (handle_ukhas Uploader.init "$$FOO,1,2,3*ABCD".data).1.queue =
        [habitat_normalize "$$FOO,1,2,3*ABCD".data] ∧
      habitat_normalize "$$FOO,1,2,3*ABCD".data = "$$FOO,1,2,3*ABCD\n".data := by
  exact ⟨fun st data => rfl, by decide, by decide, by decide⟩

theorem getLast?_append_newline (l : List Char) :
    (l ++ ['\n']).getLast? = some '\n' := by
  induction l with
  | nil => rfl
  | cons a l ih =>
    cases l with
    | nil => rfl
    | cons b m => simpa [List.getLast?_cons_cons] using ih

/-- Modelled from the spec's words for comparison: "the result ends
with exactly one trailing newline" — a final `'\n'` not preceded by
another `'\n'`. -/
def endsWithOneNewline (l : List Char) : Bool :=
  l.getLast? = some '\n' ∧ l.dropLast.getLast? ≠ some '\n'

/-- C5 counterexample: `add("FOO\n\n")` queues `"$$FOO\n\n"`, which
ends with two newlines, not exactly one (the source appends a newline
only when the last character is not already one, and never strips
extras). -/
theorem c5_normalize_counterexample :
    (habitat_add Uploader.init "FOO\n\n".data).queue = ["$$FOO\n\n".data] ∧
      endsWithOneNewline (habitat_normalize "FOO\n\n".data) = false := by
  decide

/-- C5 (amended): the queued string is the normalized form — it starts
with exactly `"$$"`, no `'$'` survives after that prefix (everything up
to and including the last `'$'` of the input is removed), and it ends
with a newline (one is appended only when the input does not already
end with one, so pre-existing extra trailing newlines are kept); both
spec examples normalize to `"$$FOO,1,2,3\n"`. -/
theorem c5_normalization :
    (∀ s, (habitat_normalize s).take 2 = ['$', '$'] ∧
        '$' ∉ (habitat_normalize s).drop 2 ∧
        (habitat_normalize s).getLast? = some '\n') ∧
      (∀ st s, st.inhibit = false → st.queue.length < st.queue_size →
        (habitat_add st s).queue = st.queue ++ [habitat_normalize s]) ∧
      habitat_normalize "$$$$FOO,1,2,3".data = "$$FOO,1,2,3\n".data ∧
      habitat_normalize "FOO,1,2,3".data = "$$FOO,1,2,3\n".data := by
  refine ⟨fun s => ?_, fun st s h1 h2 => ?_, by decide, by decide⟩
  · have hmem : '$' ∉ lastPart (splitChar '$' s) := splitChar_lastPart_not_mem '$' s
    simp only [habitat_normalize]
    split
    · rename_i hl
      exact ⟨rfl, by simpa using hmem, hl⟩
    · rename_i hl
      exact ⟨rfl, by simp [hmem], getLast?_append_newline _⟩
  · unfold habitat_add
    rw [if_neg (by simp [h1]), if_pos h2]

/-- C3: response handling of one `habitat_upload` call with the default
retry limit 5: after any run of 409-conflict responses, a 201/403
terminates the attempt as a success, a connection-level failure or any
other status abandons it immediately, and five straight 409s exhaust
the retry budget (each case also counts the HTTP attempts made). -/
theorem c3_upload_retry_policy (resp : Nat → HabitatResponse) :
    (∀ k, k < 5 → (∀ i, i < k → resp i = .status 409) →
        ((resp k = .status 201 ∨ resp k = .status 403) →
            habitat_upload resp 5 = (.uploaded, k + 1)) ∧
          (resp k = .conn_error →
            habitat_upload resp 5 = (.conn_failed, k + 1)) ∧
          (∀ code, resp k = .status code → code ≠ 201 → code ≠ 403 →
            code ≠ 409 →
            habitat_upload resp 5 = (.http_error code, k + 1))) ∧
      ((∀ i, i < 5 → resp i = .status 409) →
        habitat_upload resp 5 = (.conflict_exhausted, 5)) := by
  constructor
  · intro k hk h409
    have hjump : habitat_upload resp 5 = habitat_upload_go resp 5 k :=
      habitat_upload_go_conflicts resp 5 k (Nat.le_of_lt hk) h409
    refine ⟨fun hok => ?_, fun hconn => ?_, fun code hcode h1 h2 h3 => ?_⟩
    · rw [hjump, habitat_upload_go_eq, if_pos hk]
      rcases hok with h | h <;> rw [h] <;> simp
    · rw [hjump, habitat_upload_go_eq, if_pos hk, hconn]
    · rw [hjump, habitat_upload_go_eq, if_pos hk, hcode]
      simp [h1, h2, h3]
  · intro h409
    have hjump : habitat_upload resp 5 = habitat_upload_go resp 5 5 :=
      habitat_upload_go_conflicts resp 5 5 (Nat.le_refl 5) h409
    rw [hjump, habitat_upload_go_eq, if_neg (by omega)]

/-- A response sequence answering 409 twice and then 201. -/
def c3resp : Nat → HabitatResponse :=
  fun i => if i < 2 then .status 409 else .status 201

/-- C3 witness: two conflicts then a 201 gives a success after three
attempts. -/
theorem c3_upload_retry_policy_witness :
    habitat_upload c3resp 5 = (.uploaded, 3) :=
  ((c3_upload_retry_policy c3resp).1 2 (by decide)
    (fun i hi => by simp [c3resp, hi])).1 (Or.inl (by simp [c3resp]))

/-- C5 witness: a plain sentence pushed onto a fresh (non-inhibited,
non-full) uploader lands on the queue in normalized form. -/
theorem c5_normalization_witness :
    (habitat_add Uploader.init "X".data).queue =
      Uploader.init.queue ++ [habitat_normalize "X".data] :=
  c5_normalization.2.1 Uploader.init "X".data rfl (by decide)

/-- C9 counterexample: when the broadcast send and the localhost
fallback both fail, the exception escapes to the outer handler before
`close()` runs, so the opened socket is never closed — for the OziMux
emitter and for the payload-summary emitter alike. -/
theorem c9_socket_close_counterexample :
    (oziplotter_upload_basic_telemetry ⟨false, false⟩ "00:00:01".data 1 2 100).1 =
        [.socket_opened] ∧
      .socket_closed ∉
        (oziplotter_upload_basic_telemetry ⟨false, false⟩ "00:00:01".data 1 2 100).1 ∧
      send_payload_summary ⟨false, false⟩ 55672 exampleRecord = [.socket_opened] ∧
      .socket_closed ∉ send_payload_summary ⟨false, false⟩ 55672 exampleRecord := by
  decide

/-- C9 (amended): for every run of either UDP emitter, a socket is
opened and it is closed exactly when the broadcast send or the
localhost fallback succeeds; when both fail the exception is caught
and logged (never raised to the caller) but the close is skipped. -/
theorem c9_socket_close :
    (∀ (env : UdpEnv) (time : List Char) (lat lon : ℚ) (alt : Int),
        .socket_opened ∈ (oziplotter_upload_basic_telemetry env time lat lon alt).1 ∧
          (.socket_closed ∈ (oziplotter_upload_basic_telemetry env time lat lon alt).1 ↔
            env.broadcast_ok = true ∨ env.localhost_ok = true)) ∧
      (∀ (env : UdpEnv) (port : Int) (t : Telemetry), port ≠ -1 →
        ¬(pyEqZero t.latitude = true ∧ pyEqZero t.longitude = true) →
          .socket_opened ∈ send_payload_summary env port t ∧
            (.socket_closed ∈ send_payload_summary env port t ↔
              env.broadcast_ok = true ∨ env.localhost_ok = true)) := by
  constructor
  · intro env time lat lon alt
    rcases env with ⟨b, l⟩
    cases b <;> cases l <;> simp [oziplotter_upload_basic_telemetry]
  · intro env port t hport hzero
    rcases env with ⟨b, l⟩
    cases b <;> cases l <;>
      simp [send_payload_summary, hport, hzero]

/-- C9 witness: with the summary port enabled, a nonzero position and a
successful broadcast send, the summary emitter opens and closes its
socket. -/
theorem c9_socket_close_witness :
    .socket_opened ∈ send_payload_summary ⟨true, false⟩ 55672 exampleRecord ∧
      (.socket_closed ∈ send_payload_summary ⟨true, false⟩ 55672 exampleRecord ↔
        (UdpEnv.mk true false).broadcast_ok = true ∨
          (UdpEnv.mk true false).localhost_ok = true) :=
  c9_socket_close.2 ⟨true, false⟩ 55672 exampleRecord (by decide) (by decide)

theorem horusUnpack_some_length (data : List Nat) (t : Telemetry)
    (h : horusUnpack data = some t) : data.length = 22 := by
  unfold horusUnpack at h
  split at h
  · simp_all
  · exact absurd h (by simp)

theorem decode_none_of_unpack_none (data : List Nat)
    (pl : List (Nat × String)) (h : horusUnpack data = none) :
    decode_horus_binary data pl = none := by
  unfold decode_horus_binary
  rw [h]

/-- C1: the binary decoder returns the no-output result exactly on the
three failure cases.  A 21-byte buffer never matches the fixed layout
(`struct.calcsize("<BHBBBffHBBbBH") == 22`), so for such buffers the
decode always fails with the layout mismatch; for buffers that do
unpack, no-output holds exactly when the CRC16 over all bytes but the
trailing 2-byte checksum field differs from the transmitted raw 16-bit
checksum, or the payload ID is absent from the table — no partial
output is produced in any of these cases. -/
theorem c1_decode_failure_cases (data : List Nat) (pl : List (Nat × String)) :
    (data.length = 21 →
        horusUnpack data = none ∧ decode_horus_binary data pl = none) ∧
      (horusUnpack data = none → decode_horus_binary data pl = none) ∧
      (∀ t, horusUnpack data = some t →
        (decode_horus_binary data pl = none ↔
          crc16 (data.take (data.length - 2)) ≠ t.checksum ∨
            pl.lookup t.payload_id = none)) := by
  refine ⟨fun h21 => ?_, decode_none_of_unpack_none data pl, fun t ht => ?_⟩
  · have hnone : horusUnpack data = none := by
      cases hu : horusUnpack data with
      | none => rfl
      | some t =>
        have := horusUnpack_some_length data t hu
        omega
    exact ⟨hnone, decode_none_of_unpack_none data pl hnone⟩
  · unfold decode_horus_binary
    rw [ht]
    by_cases hcrc : crc16 (data.take (data.length - 2)) = t.checksum
    · simp only [hcrc, ne_eq, not_true_eq_false, if_false, ite_false]
      cases hl : pl.lookup t.payload_id with
      | none => simp [hl, hcrc]
      | some call => simp [hl, hcrc]
    · simp [hcrc]

/-- C1 witness: a 21-byte all-zero buffer is rejected as a layout
mismatch, and the valid example packet is rejected when its payload ID
is missing from the table. -/
theorem c1_decode_failure_cases_witness :
    (horusUnpack (List.replicate 21 0) = none ∧
        decode_horus_binary (List.replicate 21 0) [] = none) ∧
      decode_horus_binary examplePacket [] = none :=
  ⟨(c1_decode_failure_cases (List.replicate 21 0) []).1 (by decide),
    ((c1_decode_failure_cases examplePacket []).2.2 exampleRecord
      (by decide)).mpr (Or.inr (by decide))⟩

/-- The post-checksum stages of the ASCII validator never report a
checksum failure. -/
theorem ozimux_checked_ne_crc_fail (telem : List Char) :
    ozimux_checked telem ≠ .crc_fail := by
  simp only [ozimux_checked]
  split
  · split
    · split_ifs <;> simp
    · simp
  · simp

/-- C7 counterexample: a sentence whose trailing checksum is the
correct CRC written in lowercase — case-insensitively equal to the
recomputed value — is dropped as a checksum failure (the code compares
the strings exactly, and its computed string is uppercase). -/
theorem c7_checksum_case_counterexample :
    ozimux_extract "$$X,0,00:00:01,1.0,2.0,100*50be".data =
        some ("X,0,00:00:01,1.0,2.0,100".data, "50be".data) ∧
      (crc16_ccitt ("X,0,00:00:01,1.0,2.0,100".data.map Char.toNat)).data.map
          Char.toLower =
        "50be".data.map Char.toLower ∧
      ozimux_upload "$$X,0,00:00:01,1.0,2.0,100*50be".data = .crc_fail := by
  decide

/-- C7 (amended): the checksum comparison is an exact (case-sensitive)
string comparison against the uppercase 4-hex rendering of the
recomputed CRC: a sentence reaching the checksum stage is dropped as
`CRC Fail` precisely when the trailing string differs from that
rendering — so the correct CRC in uppercase passes the stage while the
same CRC in lowercase is dropped. -/
theorem c7_checksum_comparison :
    (∀ s telem crcs, ozimux_extract s = some (telem, crcs) →
        (ozimux_upload s = .crc_fail ↔
          (crc16_ccitt (telem.map Char.toNat)).data ≠ crcs)) ∧
      ozimux_upload "$$X,0,00:00:01,1.0,2.0,100*50BE".data ≠ .crc_fail ∧
      ozimux_upload "$$X,0,00:00:01,1.0,2.0,100*50be".data = .crc_fail := by
  refine ⟨fun s telem crcs h => ?_, by decide, by decide⟩
  unfold ozimux_upload
  rw [h]
  show (if (crc16_ccitt (telem.map Char.toNat)).data ≠ crcs then
      OziResult.crc_fail else ozimux_checked telem) = OziResult.crc_fail ↔
    (crc16_ccitt (telem.map Char.toNat)).data ≠ crcs
  by_cases hc : (crc16_ccitt (telem.map Char.toNat)).data = crcs
  · rw [if_neg (not_not_intro hc)]
    constructor
    · intro hbad
      exact absurd hbad (ozimux_checked_ne_crc_fail telem)
    · intro hbad
      exact absurd hc hbad
  · rw [if_pos hc]
    simp [hc]

/-- C7 witness: a sentence whose trailing checksum string does not
match the recomputed CRC is dropped as a checksum failure. -/
theorem c7_checksum_comparison_witness :
    ozimux_upload "$$FOO,1,2,3*0000".data = .crc_fail :=
  (c7_checksum_comparison.1 "$$FOO,1,2,3*0000".data "FOO,1,2,3".data
    "0000".data (by decide)).mpr (by decide)

/-- The CRC16 of concatenated byte strings continues the fold from the
first string's final register state. -/
theorem crc16_append (l1 l2 : List Nat) :
    crc16 (l1 ++ l2) = l2.foldl crc16Update (crc16 l1) := by
  unfold crc16
  exact List.foldl_append crc16Update 0xFFFF l1 l2

/-- C4: every successful binary decode derives the battery voltage as
`5.0 * raw / 255.0` and renders `"$$" ++ body ++ "*" ++ CRC4 ++ "\n"`
with the 4-hex-digit CRC computed over the body (the sentence without
its `$$` prefix); the example record (ID 1 → HORUSBINARY, counter 42,
time 03:04:05, lat 10.12345, lon 20.54321, alt 5000, speed 3, sats 7,
temp -5, battRaw 200) renders to exactly the expected sentence. -/
theorem c4_sentence_rendering :
    (∀ (data : List Nat) (pl : List (Nat × String)) (out : String)
        (t : Telemetry),
        decode_horus_binary data pl = some (out, t) →
          t.batt_voltage = 5 * (t.batt_voltage_raw : ℚ) / 255 ∧
            ∃ body : String,
              out = "$$" ++ body ++ "*" ++ crc16_ccitt (strBytes body) ++ "\n") ∧
      decode_horus_binary examplePacket default_payload_list =
        some
          ("$$HORUSBINARY,42,03:04:05,10.12345,20.54321,5000,3,7,-5,3.92*56FF\n",
            { exampleRecord with
                callsign := "HORUSBINARY"
                batt_voltage := 5 * (200 : ℚ) / 255 }) := by
  constructor
  · intro data pl out t h
    unfold decode_horus_binary at h
    split at h
    · cases h
    · rename_i t0 _
      split at h
      · cases h
      · split at h
        · cases h
        · rename_i call _
          have h' : decode_render call t0 = (out, t) := by
            injection h
          have hout : out = (decode_render call t0).1 := by rw [h']
          have ht : t = (decode_render call t0).2 := by rw [h']
          subst hout
          subst ht
          exact ⟨rfl, ⟨ukhasBody call t0 (5 * (t0.batt_voltage_raw : ℚ) / 255), rfl⟩⟩
  · have h0 : decode_horus_binary examplePacket default_payload_list =
        some (decode_render "HORUSBINARY" exampleRecord) := rfl
    rw [h0]
    have hb : ukhasBody "HORUSBINARY" exampleRecord
          (5 * (exampleRecord.batt_voltage_raw : ℚ) / 255) =
        "HORUSBINARY,42,03:04:05,10.12345,20.54321,5000,3,7,-5,3.92" := by
      decide
    have hc : crc16_ccitt (strBytes
          "HORUSBINARY,42,03:04:05,10.12345,20.54321,5000,3,7,-5,3.92") =
        "56FF" := by
      have hsplit : strBytes
            "HORUSBINARY,42,03:04:05,10.12345,20.54321,5000,3,7,-5,3.92" =
          strBytes "HORUSBINARY,42,03:04:05," ++
            (strBytes "10.12345,20.54321,50" ++ strBytes "00,3,7,-5,3.92") := by
        decide
      have e1 : crc16 (strBytes "HORUSBINARY,42,03:04:05,") = 0xD023 := by
        decide
      have e2 : (strBytes "10.12345,20.54321,50").foldl crc16Update 0xD023 =
          0x8CF1 := by decide
      have e3 : (strBytes "00,3,7,-5,3.92").foldl crc16Update 0x8CF1 =
          0x56FF := by decide
      unfold crc16_ccitt
      rw [hsplit, crc16_append, List.foldl_append, e1, e2, e3]
      decide
    simp only [decode_render]
    rw [hb, hc]
    decide

/-- C4 witness: the example decode instantiates the general rendering
facts — its telemetry record carries `batt_voltage = 5 * 200 / 255` and
its sentence is body + CRC-of-body. -/
theorem c4_sentence_rendering_witness :
    ({ exampleRecord with
        callsign := "HORUSBINARY"
        batt_voltage := 5 * (200 : ℚ) / 255 } : Telemetry).batt_voltage =
        5 * (({ exampleRecord with
            callsign := "HORUSBINARY"
            batt_voltage := 5 * (200 : ℚ) / 255 } : Telemetry).batt_voltage_raw :
              ℚ) / 255 ∧
      ∃ body : String,
        "$$HORUSBINARY,42,03:04:05,10.12345,20.54321,5000,3,7,-5,3.92*56FF\n" =
          "$$" ++ body ++ "*" ++ crc16_ccitt (strBytes body) ++ "\n" :=
  c4_sentence_rendering.1 examplePacket default_payload_list _ _
    c4_sentence_rendering.2

theorem crcShift_lt (c : Nat) : crcShift c < 65536 := by
  unfold crcShift
  split
  · have h : ((c <<< 1) ^^^ 0x1021) &&& 0xFFFF ≤ 0xFFFF := Nat.and_le_right
    omega
  · have h : (c <<< 1) &&& 0xFFFF ≤ 0xFFFF := Nat.and_le_right
    omega

theorem crc16Update_lt (c b : Nat) : crc16Update c b < 65536 := by
  unfold crc16Update
  rw [show (8 : Nat) = 7 + 1 from rfl, Function.iterate_succ_apply']
  exact crcShift_lt _

theorem foldl_crc16Update_lt (l : List Nat) (x : Nat) (hx : x < 65536) :
    l.foldl crc16Update x < 65536 := by
  induction l generalizing x with
  | nil => simpa using hx
  | cons b t ih => exact ih _ (crc16Update_lt x b)

/-- The CRC register always fits in 16 bits. -/
theorem crc16_lt (data : List Nat) : crc16 data < 65536 :=
  foldl_crc16Update_lt data 0xFFFF (by decide)

/-- Uppercase-hex-digit test. -/
def isUpperHexChar (c : Char) : Bool :=
  ("0123456789ABCDEF".data).any (fun d => d == c)

theorem hexDigit_isUpperHex (n : Nat) (h : n < 16) :
    isUpperHexChar (hexDigit n) = true := by
  interval_cases n <;> decide

theorem hexCharVal_hexDigit (n : Nat) (h : n < 16) :
    hexCharVal (hexDigit n) = n := by
  interval_cases n <;> decide

theorem parseHex_concat (l : List Char) (d : Char) :
    parseHex (l ++ [d]) = 16 * parseHex l + hexCharVal d := by
  unfold parseHex
  rw [List.foldl_append]
  rfl

theorem natToHexAux_parse (fuel n : Nat) (h : n < fuel) :
    parseHex (natToHexAux fuel n) = n := by
  induction fuel generalizing n with
  | zero => omega
  | succ f ih =>
    unfold natToHexAux
    by_cases h16 : n < 16
    · rw [if_pos h16]
      show parseHex ([] ++ [hexDigit n]) = n
      rw [parseHex_concat]
      simpa [parseHex] using hexCharVal_hexDigit n h16
    · rw [if_neg h16]
      have hd : n / 16 < n := Nat.div_lt_self (by omega) (by omega)
      have hrec : n / 16 < f := by omega
      rw [parseHex_concat, ih _ hrec, hexCharVal_hexDigit _ (Nat.mod_lt _ (by omega))]
      omega

theorem natToHexAux_length (fuel : Nat) :
    ∀ n k, n < fuel → 1 ≤ k → n < 16 ^ k → (natToHexAux fuel n).length ≤ k := by
  induction fuel with
  | zero => omega
  | succ f ih =>
    intro n k hf hk hn
    unfold natToHexAux
    by_cases h16 : n < 16
    · rw [if_pos h16]
      simpa using hk
    · rw [if_neg h16]
      have hk2 : 2 ≤ k := by
        by_contra hc
        have hk1 : k = 1 := by omega
        subst hk1
        simp [pow_one] at hn
        omega
      have hpow : 16 ^ k = 16 ^ (k - 1) * 16 := by
        conv_lhs => rw [show k = (k - 1) + 1 by omega]
        rw [pow_succ]
      have hrec_lt : n / 16 < 16 ^ (k - 1) :=
        Nat.div_lt_of_lt_mul (by omega)
      have hd : n / 16 < n := Nat.div_lt_self (by omega) (by omega)
      have hrec := ih (n / 16) (k - 1) (by omega) (by omega) hrec_lt
      simp only [List.length_append, List.length_cons, List.length_nil]
      omega

theorem natToHexAux_all_hex (fuel : Nat) :
    ∀ n, n < fuel → (natToHexAux fuel n).all isUpperHexChar = true := by
  induction fuel with
  | zero => omega
  | succ f ih =>
    intro n hf
    unfold natToHexAux
    by_cases h16 : n < 16
    · rw [if_pos h16]
      simpa using hexDigit_isUpperHex n h16
    · rw [if_neg h16]
      rw [List.all_append]
      have hd : n / 16 < n := Nat.div_lt_self (by omega) (by omega)
      rw [ih (n / 16) (by omega)]
      simpa using hexDigit_isUpperHex (n % 16) (Nat.mod_lt _ (by omega))

theorem parseHex_replicate_zero (m : Nat) :
    (List.replicate m '0').foldl (fun a c => 16 * a + hexCharVal c) 0 = 0 := by
  induction m with
  | zero => rfl
  | succ k ih =>
    rw [List.replicate_succ]
    simpa [hexCharVal] using ih

/-- Leading `'0'` padding does not change the parsed value. -/
theorem parseHex_zfill (w : Nat) (l : List Char) :
    parseHex (zfill w l) = parseHex l := by
  unfold zfill parseHex
  rw [List.foldl_append, parseHex_replicate_zero]

theorem zfill_length (w : Nat) (l : List Char) (h : l.length ≤ w) :
    (zfill w l).length = w := by
  unfold zfill
  simp only [List.length_append, List.length_replicate]
  omega

theorem zfill_all (w : Nat) (l : List Char) (p : Char → Bool)
    (hp : p '0' = true) (hl : l.all p = true) : (zfill w l).all p = true := by
  unfold zfill
  rw [List.all_append, hl]
  simp only [Bool.and_true]
  induction w - l.length with
  | zero => rfl
  | succ k ih =>
    rw [List.replicate_succ, List.all_cons, hp, ih]
    rfl

/-- C8: `crc16_ccitt` renders the CCITT-false CRC16 of its input
(16-bit register, initial value 0xFFFF, polynomial 0x1021 — the
definition of `crc16`, validated by the standard check value
`crc16("123456789") = 0x29B1`) as exactly 4 zero-padded uppercase
hexadecimal digits whose value reads back to the CRC; being a Lean
function, it is pure by construction. -/
theorem c8_crc16_ccitt_spec (data : List Nat) :
    (crc16_ccitt data).length = 4 ∧
      (crc16_ccitt data).data.all isUpperHexChar = true ∧
      parseHex (crc16_ccitt data).data = crc16 data ∧
      crc16 data < 65536 ∧
      crc16 (strBytes "123456789") = 0x29B1 ∧
      crc16_ccitt (strBytes "123456789") = "29B1" := by
  have hlt := crc16_lt data
  have h16 : crc16 data < 16 ^ 4 := by
    have : (16 : Nat) ^ 4 = 65536 := by norm_num
    omega
  have hlen : (natToHex (crc16 data)).length ≤ 4 :=
    natToHexAux_length _ _ 4 (Nat.lt_succ_self _) (by omega) h16
  refine ⟨?_, ?_, ?_, hlt, by decide, by decide⟩
  · show (zfill 4 (natToHex (crc16 data))).length = 4
    exact zfill_length 4 _ hlen
  · show (zfill 4 (natToHex (crc16 data))).all isUpperHexChar = true
    exact zfill_all 4 _ _ (by decide)
      (natToHexAux_all_hex _ _ (Nat.lt_succ_self _))
  · show parseHex (zfill 4 (natToHex (crc16 data))) = crc16 data
    rw [parseHex_zfill]
    exact natToHexAux_parse _ _ (Nat.lt_succ_self _)
